import Mathlib

/-!
Shallow embedding of src/src/wlr_screencopy.rs (wlr-screencopy client module).

Transport-level proxies (ZwlrScreencopyFrameV1, WlOutput, WlBuffer) are
modelled by their object identity, a Nat.  A Rust panic (unwrap on None/Err,
todo!) is modelled as Option.none: the operation aborts and produces no
post-state.  Wire enums arriving as WEnum values are modelled by a WEnum
wrapper; into_result is Some exactly on known values, and the source
unwraps it.
-/

/-- Wire enum wrapper, as wayland-client WEnum: either a known value of the
enum or an unrecognized raw code. -/
inductive WEnum (α : Type) where
  | Value : α → WEnum α
  | Unknown : Nat → WEnum α
deriving DecidableEq

/-- WEnum::into_result: Ok on a known value, Err on an unrecognized code.
The Err side carries no data we need, so the result is an Option. -/
def WEnum.into_result {α : Type} : WEnum α → Option α
  | WEnum.Value a => some a
  | WEnum.Unknown _ => none

/-- wl_shm::Format, identified by its wire code (Argb8888 is code 0). -/
structure Format where
  code : Nat
deriving DecidableEq

/-- The Argb8888 pixel format (wire code 0). -/
def Format.Argb8888 : Format := ⟨0⟩

/-- zwlr_screencopy_frame_v1::Flags, a bitflags value (bit 0 is YInvert). -/
structure Flags where
  bits : Nat
deriving DecidableEq

/-- FrameStatus from the source: NotReady, Failed, or Ready with the
(tv_sec_hi, tv_sec_lo, tv_nsec) timestamp triple. -/
inductive FrameStatus where
  | NotReady : FrameStatus
  | Failed : FrameStatus
  | Ready : Nat × Nat × Nat → FrameStatus
deriving DecidableEq

/-- BufferType from the source: a shared-memory layout (format, width,
height, stride) or a linux-dmabuf layout (raw format code, width, height). -/
inductive BufferType where
  | WlShm : Format → Nat → Nat → Nat → BufferType
  | LinuxDmabuf : Nat → Nat → Nat → BufferType
deriving DecidableEq

/-- WlrScreencopyFrameInner from the source: the proxy identity, the offered
buffer list, the buffers_done flag, the optional capture flags and the
status. -/
structure WlrScreencopyFrameInner where
  frame : Nat
  buffers : List BufferType
  buffers_done : Bool
  flags : Option Flags
  status : FrameStatus
deriving DecidableEq

/-- WlrScreencopyState from the source: the bound manager proxy and the
registry of frames, in registration order. -/
structure WlrScreencopyState where
  manager : Nat
  frames : List WlrScreencopyFrameInner
deriving DecidableEq

/-- The inner record built by capture_output: fresh proxy id, empty buffer
list, buffers_done false, no flags, status NotReady. -/
def newFrameInner (frameId : Nat) : WlrScreencopyFrameInner :=
  { frame := frameId
    buffers := []
    buffers_done := false
    flags := none
    status := FrameStatus.NotReady }

/-- WlrScreencopyState::capture_output: sends a capture_output request that
creates a fresh frame proxy (its identity is supplied by the transport and
passed here as frameId), pushes the new inner onto the registry and returns
the handle.  The output argument only parameterizes the request. -/
def WlrScreencopyState.capture_output (st : WlrScreencopyState) (_output : Nat)
    (frameId : Nat) : WlrScreencopyState × WlrScreencopyFrameInner :=
  ({ st with frames := st.frames ++ [newFrameInner frameId] }, newFrameInner frameId)

/-- The seven zwlr_screencopy_frame_v1 events, plus Other for any event kind
outside the protocol definition (the enum is non-exhaustive and the source
has a catch-all arm). -/
inductive FrameEvent where
  | Buffer : WEnum Format → Nat → Nat → Nat → FrameEvent
  | LinuxDmabuf : Nat → Nat → Nat → FrameEvent
  | BufferDone : FrameEvent
  | Flags : WEnum Flags → FrameEvent
  | Damage : Nat → Nat → Nat → Nat → FrameEvent
  | Ready : Nat → Nat → Nat → FrameEvent
  | Failed : FrameEvent
  | Other : Nat → FrameEvent
deriving DecidableEq

/-- The match block of Dispatch for ZwlrScreencopyFrameV1 once the owning
frame has been located: the single state mutation an event performs.
none models a panic: format.into_result().unwrap() on an unknown format or
flags code, and the todo!() on Damage. -/
def applyFrameEvent (inner : WlrScreencopyFrameInner) :
    FrameEvent → Option WlrScreencopyFrameInner
  | FrameEvent.Buffer format width height stride =>
      (format.into_result).map fun f =>
        { inner with buffers := inner.buffers ++ [BufferType.WlShm f width height stride] }
  | FrameEvent.LinuxDmabuf format width height =>
      some { inner with buffers := inner.buffers ++ [BufferType.LinuxDmabuf format width height] }
  | FrameEvent.BufferDone => some { inner with buffers_done := true }
  | FrameEvent.Flags flags =>
      (flags.into_result).map fun f => { inner with flags := some f }
  | FrameEvent.Damage _ _ _ _ => none
  | FrameEvent.Ready hi lo nsec =>
      some { inner with status := FrameStatus.Ready (hi, lo, nsec) }
  | FrameEvent.Failed => some { inner with status := FrameStatus.Failed }
  | FrameEvent.Other _ => some inner

/-- Dispatch for ZwlrScreencopyFrameV1: scan the registry for the first frame
whose proxy identity matches the event, then apply the mutation to it.  The
source unwraps the find, so an unmatched identity is a panic (none); a panic
inside the match also aborts the whole dispatch. -/
def dispatchFrameEvent : List WlrScreencopyFrameInner → Nat → FrameEvent →
    Option (List WlrScreencopyFrameInner)
  | [], _, _ => none
  | f :: rest, proxy, ev =>
      if f.frame = proxy then
        (applyFrameEvent f ev).map (· :: rest)
      else
        (dispatchFrameEvent rest proxy ev).map (f :: ·)

/-- Deliver a list of events to one frame inner, stopping at the first panic. -/
def runFrameEvents : List FrameEvent → WlrScreencopyFrameInner →
    Option WlrScreencopyFrameInner
  | [], inner => some inner
  | ev :: evs, inner => (applyFrameEvent inner ev).bind (runFrameEvents evs)

/-- Deliver a list of identity-tagged events through the dispatcher,
stopping at the first panic. -/
def runDispatch : List (Nat × FrameEvent) → List WlrScreencopyFrameInner →
    Option (List WlrScreencopyFrameInner)
  | [], frames => some frames
  | p :: ps, frames => (dispatchFrameEvent frames p.1 p.2).bind (runDispatch ps)

/-- A copy request as put on the wire: the frame proxy it is sent on and the
buffer proxy it references. -/
structure CopyRequest where
  frame : Nat
  buffer : Nat
deriving DecidableEq

/-- WlrScreencopyFrame::copy: locks the inner and sends a copy request on the
frame proxy referencing the given buffer.  It assigns no field, so the inner
state is returned unchanged alongside the emitted request. -/
def WlrScreencopyFrame.copy (inner : WlrScreencopyFrameInner) (buffer : Nat) :
    WlrScreencopyFrameInner × CopyRequest :=
  (inner, { frame := inner.frame, buffer := buffer })

/-- WlrScreencopyFrame::buffer_types: the empty list while buffers_done is
false, otherwise a clone of the offered buffer list. -/
def WlrScreencopyFrame.buffer_types (inner : WlrScreencopyFrameInner) : List BufferType :=
  if !inner.buffers_done then [] else inner.buffers

/-- WlrScreencopyFrame::status: a clone of the current FrameStatus. -/
def WlrScreencopyFrame.status (inner : WlrScreencopyFrameInner) : FrameStatus :=
  inner.status

/-- BindError as produced by GlobalList::bind: the global is absent from the
registry, or its advertised version does not intersect the requested range. -/
inductive BindError where
  | NotPresent : BindError
  | IncompatibleVersion : BindError
deriving DecidableEq

/-- Modelled from the spec: GlobalList::bind lives in the transport crate
(wayland-client), not in this repository.  Per the spec, bind establishes
the capture capability at a negotiated protocol version inside the requested
range (the source requests 1..=3) and fails with a BindError when the
capability is absent or no mutually supported version exists.  The registry
is the advertised (interface, version) list; the negotiated version is the
advertised version capped at the requested maximum. -/
def bindScreencopyManager (globals : List (String × Nat)) : Except BindError Nat :=
  match globals.find? (fun g => g.1 = "zwlr_screencopy_manager_v1") with
  | none => Except.error BindError.NotPresent
  | some g => if g.2 < 1 then Except.error BindError.IncompatibleVersion
              else Except.ok (min g.2 3)

/-- Outcome of WlrScreencopyState::new: either a constructed state, or an
abort (the source unwraps the bind result, so a BindError becomes a panic
carrying that error in its message). -/
inductive NewResult where
  | ok : WlrScreencopyState → NewResult
  | aborted : BindError → NewResult
deriving DecidableEq

/-- WlrScreencopyState::new: bind the manager global at version range 1..=3
and unwrap, then start with an empty frame registry. -/
def WlrScreencopyState.new (globals : List (String × Nat)) : NewResult :=
  match bindScreencopyManager globals with
  | Except.ok m => NewResult.ok { manager := m, frames := [] }
  | Except.error e => NewResult.aborted e

/-- An offer event as the spec describes it: a shared-memory layout or a
dmabuf layout, carrying a (known) format. -/
inductive OfferEvent where
  | Shm : Format → Nat → Nat → Nat → OfferEvent
  | Dma : Nat → Nat → Nat → OfferEvent
deriving DecidableEq

/-- The frame event an offer arrives as. -/
def OfferEvent.toFrameEvent : OfferEvent → FrameEvent
  | OfferEvent.Shm f w h s => FrameEvent.Buffer (WEnum.Value f) w h s
  | OfferEvent.Dma f w h => FrameEvent.LinuxDmabuf f w h

/-- The BufferType an offer is recorded as. -/
def OfferEvent.toBufferType : OfferEvent → BufferType
  | OfferEvent.Shm f w h s => BufferType.WlShm f w h s
  | OfferEvent.Dma f w h => BufferType.LinuxDmabuf f w h

/-- Events that assign the status field: Ready and Failed. -/
def FrameEvent.isTerminalEvent : FrameEvent → Bool
  | FrameEvent.Ready _ _ _ => true
  | FrameEvent.Failed => true
  | _ => false

/-- Terminal frame states: Ready or Failed. -/
def FrameStatus.isTerminal : FrameStatus → Bool
  | FrameStatus.NotReady => false
  | _ => true


lemma runFrameEvents_append (es fs : List FrameEvent) (inner : WlrScreencopyFrameInner) :
    runFrameEvents (es ++ fs) inner
      = (runFrameEvents es inner).bind (runFrameEvents fs) := by
  induction es generalizing inner with
  | nil => simp [runFrameEvents]
  | cons e es ih =>
    simp only [List.cons_append, runFrameEvents]
    cases applyFrameEvent inner e with
    | none => simp
    | some i => simp [ih]

lemma applyFrameEvent_offer (inner : WlrScreencopyFrameInner) (o : OfferEvent) :
    applyFrameEvent inner o.toFrameEvent
      = some { inner with buffers := inner.buffers ++ [o.toBufferType] } := by
  cases o <;> rfl

lemma runFrameEvents_offers (offers : List OfferEvent) (inner : WlrScreencopyFrameInner) :
    runFrameEvents (offers.map OfferEvent.toFrameEvent) inner
      = some { inner with buffers := inner.buffers ++ offers.map OfferEvent.toBufferType } := by
  induction offers generalizing inner with
  | nil => simp [runFrameEvents]
  | cons o os ih =>
    simp only [List.map_cons, runFrameEvents, applyFrameEvent_offer, ih]
    simp [List.append_assoc]

/-- C1: for every frame and every sequence of offers followed by
negotiation-closed, buffer_types is empty after any proper or full prefix of
the offers (before BufferDone has been applied) and is exactly the offered
layouts, in arrival order, after BufferDone. -/
theorem buffer_types_empty_before_done_and_full_after (frameId : Nat)
    (offers pre suf : List OfferEvent) (h : offers = pre ++ suf) :
    ((runFrameEvents (pre.map OfferEvent.toFrameEvent) (newFrameInner frameId)).map
        WlrScreencopyFrame.buffer_types = some [])
  ∧ ((runFrameEvents (offers.map OfferEvent.toFrameEvent ++ [FrameEvent.BufferDone])
        (newFrameInner frameId)).map WlrScreencopyFrame.buffer_types
      = some (offers.map OfferEvent.toBufferType)) := by
  subst h
  constructor
  · rw [runFrameEvents_offers]
    simp [WlrScreencopyFrame.buffer_types, newFrameInner]
  · rw [runFrameEvents_append, runFrameEvents_offers]
    simp [runFrameEvents, applyFrameEvent, WlrScreencopyFrame.buffer_types, newFrameInner]

/-- C1 witness: one shared-memory offer then BufferDone, on frame 1.
Mid-negotiation (empty prefix of the offers) buffer_types is empty; after
BufferDone it is exactly the one offered layout. -/
theorem buffer_types_empty_before_done_and_full_after_witness :
    ((runFrameEvents (([] : List OfferEvent).map OfferEvent.toFrameEvent)
        (newFrameInner 1)).map WlrScreencopyFrame.buffer_types = some [])
  ∧ ((runFrameEvents
        (([OfferEvent.Shm Format.Argb8888 1920 1080 7680].map OfferEvent.toFrameEvent)
          ++ [FrameEvent.BufferDone]) (newFrameInner 1)).map
        WlrScreencopyFrame.buffer_types
      = some [BufferType.WlShm Format.Argb8888 1920 1080 7680]) :=
  buffer_types_empty_before_done_and_full_after 1
    [OfferEvent.Shm Format.Argb8888 1920 1080 7680] []
    [OfferEvent.Shm Format.Argb8888 1920 1080 7680] rfl

/-- C2 counterexample: statuses are assigned unconditionally, so a Ready
event delivered after a Failed event overwrites the terminal Failed state.
After the trace [Failed, Ready 0 1 0] the status is Ready (0, 1, 0), not
Failed, refuting monotonicity of the FrameState. -/
theorem status_overwritten_after_terminal_cex :
    ((runFrameEvents [FrameEvent.Failed] (newFrameInner 1)).map WlrScreencopyFrame.status
        = some FrameStatus.Failed)
  ∧ ((runFrameEvents [FrameEvent.Failed, FrameEvent.Ready 0 1 0] (newFrameInner 1)).map
        WlrScreencopyFrame.status = some (FrameStatus.Ready (0, 1, 0)))
  ∧ ((runFrameEvents [FrameEvent.Failed, FrameEvent.Ready 0 1 0] (newFrameInner 1)).map
        WlrScreencopyFrame.status ≠ some FrameStatus.Failed) :=
  ⟨rfl, rfl, by decide⟩

/-- C2 amended: once the FrameState is terminal (Ready or Failed), any
further event other than a succeeded or failed event that completes without
aborting leaves the FrameState unchanged; only a further succeeded or failed
event can overwrite a terminal state. -/
theorem status_unchanged_by_nonterminal_events (inner : WlrScreencopyFrameInner)
    (ev : FrameEvent) (_hterm : inner.status.isTerminal = true)
    (hev : ev.isTerminalEvent = false) (hok : applyFrameEvent inner ev ≠ none) :
    (applyFrameEvent inner ev).map WlrScreencopyFrame.status = some inner.status := by
  cases ev with
  | Buffer format w h s =>
    cases format with
    | Value f => rfl
    | Unknown n => exact absurd rfl hok
  | LinuxDmabuf f w h => rfl
  | BufferDone => rfl
  | Flags flags =>
    cases flags with
    | Value f => rfl
    | Unknown n => exact absurd rfl hok
  | Damage x y w h => exact absurd rfl hok
  | Ready hi lo nsec => simp [FrameEvent.isTerminalEvent] at hev
  | Failed => simp [FrameEvent.isTerminalEvent] at hev
  | Other n => rfl

/-- C2 amended witness: a BufferDone event delivered to a frame whose status
is already Failed leaves the status Failed. -/
theorem status_unchanged_by_nonterminal_events_witness :
    (applyFrameEvent
        { frame := 1, buffers := [], buffers_done := true, flags := none,
          status := FrameStatus.Failed } FrameEvent.BufferDone).map
      WlrScreencopyFrame.status = some FrameStatus.Failed :=
  status_unchanged_by_nonterminal_events
    { frame := 1, buffers := [], buffers_done := true, flags := none,
      status := FrameStatus.Failed } FrameEvent.BufferDone rfl rfl (by decide)

/-- C3 counterexample: an offer delivered after BufferDone is appended to the
offered-buffer sequence and no abort occurs, so the sequence is neither
frozen nor is the late offer treated as a protocol violation. -/
theorem offer_after_done_appends_cex :
    ((runFrameEvents [FrameEvent.BufferDone,
        FrameEvent.Buffer (WEnum.Value Format.Argb8888) 4 4 16] (newFrameInner 1)).map
        WlrScreencopyFrameInner.buffers = some [BufferType.WlShm Format.Argb8888 4 4 16])
  ∧ ((runFrameEvents [FrameEvent.BufferDone,
        FrameEvent.Buffer (WEnum.Value Format.Argb8888) 4 4 16] (newFrameInner 1)).map
        WlrScreencopyFrameInner.buffers ≠ some []) :=
  ⟨rfl, by decide⟩

/-- C3 amended: an offer event delivered after negotiation has closed
(buffers_done is true) is handled exactly like any other offer: it is
appended to the offered-buffer sequence, with no protocol-violation abort. -/
theorem offer_after_done_appends (inner : WlrScreencopyFrameInner) (f : Format)
    (w h s df dw dh : Nat) (_hdone : inner.buffers_done = true) :
    (applyFrameEvent inner (FrameEvent.Buffer (WEnum.Value f) w h s)
        = some { inner with buffers := inner.buffers ++ [BufferType.WlShm f w h s] })
  ∧ (applyFrameEvent inner (FrameEvent.LinuxDmabuf df dw dh)
        = some { inner with buffers := inner.buffers ++ [BufferType.LinuxDmabuf df dw dh] }) :=
  ⟨rfl, rfl⟩

/-- C3 amended witness: a shared-memory offer and a dmabuf offer delivered
after BufferDone are each appended to the (closed) sequence. -/
theorem offer_after_done_appends_witness :
    (applyFrameEvent
        { frame := 2, buffers := [], buffers_done := true, flags := none,
          status := FrameStatus.NotReady }
        (FrameEvent.Buffer (WEnum.Value Format.Argb8888) 4 4 16)
      = some { frame := 2, buffers := [BufferType.WlShm Format.Argb8888 4 4 16],
               buffers_done := true, flags := none, status := FrameStatus.NotReady })
  ∧ (applyFrameEvent
        { frame := 2, buffers := [], buffers_done := true, flags := none,
          status := FrameStatus.NotReady } (FrameEvent.LinuxDmabuf 7 8 9)
      = some { frame := 2, buffers := [BufferType.LinuxDmabuf 7 8 9],
               buffers_done := true, flags := none, status := FrameStatus.NotReady }) :=
  offer_after_done_appends
    { frame := 2, buffers := [], buffers_done := true, flags := none,
      status := FrameStatus.NotReady } Format.Argb8888 4 4 16 7 8 9 rfl

/-- C4: an event whose proxy identity matches no registered frame makes the
dispatcher abort (the source unwraps the failed find): it is never a silent
no-op and no registered frame is mutated, since no post-registry is
produced. -/
theorem unknown_identity_aborts (frames : List WlrScreencopyFrameInner) (proxy : Nat)
    (ev : FrameEvent) (h : ∀ f ∈ frames, f.frame ≠ proxy) :
    dispatchFrameEvent frames proxy ev = none := by
  induction frames with
  | nil => rfl
  | cons f rest ih =>
    have hf : f.frame ≠ proxy := h f (by simp)
    simp only [dispatchFrameEvent, if_neg hf]
    rw [ih (fun g hg => h g (by simp [hg]))]
    rfl

/-- C4 witness: delivering BufferDone tagged with identity 2 to a registry
holding only the frame with identity 1 aborts. -/
theorem unknown_identity_aborts_witness :
    dispatchFrameEvent [newFrameInner 1] 2 FrameEvent.BufferDone = none :=
  unknown_identity_aborts [newFrameInner 1] 2 FrameEvent.BufferDone (by decide)

/-- C5: from NotReady, a succeeded event sets the status to Ready with the
timestamp components exactly as delivered, and a failed event sets the
status to Failed; Scenario A (capture, one Shm Argb8888 1920x1080 offer with
stride 7680, BufferDone, succeeded (0,1,0)) ends with buffer_types equal to
that one layout and status Ready (0, 1, 0). -/
theorem terminal_events_set_status (inner : WlrScreencopyFrameInner)
    (hi lo nsec : Nat) (_h : inner.status = FrameStatus.NotReady) :
    ((applyFrameEvent inner (FrameEvent.Ready hi lo nsec)).map WlrScreencopyFrame.status
        = some (FrameStatus.Ready (hi, lo, nsec)))
  ∧ ((applyFrameEvent inner FrameEvent.Failed).map WlrScreencopyFrame.status
        = some FrameStatus.Failed)
  ∧ ((runFrameEvents
        [FrameEvent.Buffer (WEnum.Value Format.Argb8888) 1920 1080 7680,
         FrameEvent.BufferDone, FrameEvent.Ready 0 1 0]
        (WlrScreencopyState.capture_output { manager := 1, frames := [] } 10 7).2).map
        (fun i => (WlrScreencopyFrame.buffer_types i, WlrScreencopyFrame.status i))
      = some ([BufferType.WlShm Format.Argb8888 1920 1080 7680],
              FrameStatus.Ready (0, 1, 0))) :=
  ⟨rfl, rfl, rfl⟩

/-- C5 witness: the two terminal transitions instantiated on the fresh frame
with identity 5 and timestamp (0, 1, 0), together with Scenario A. -/
theorem terminal_events_set_status_witness :
    ((applyFrameEvent (newFrameInner 5) (FrameEvent.Ready 0 1 0)).map
        WlrScreencopyFrame.status = some (FrameStatus.Ready (0, 1, 0)))
  ∧ ((applyFrameEvent (newFrameInner 5) FrameEvent.Failed).map
        WlrScreencopyFrame.status = some FrameStatus.Failed)
  ∧ ((runFrameEvents
        [FrameEvent.Buffer (WEnum.Value Format.Argb8888) 1920 1080 7680,
         FrameEvent.BufferDone, FrameEvent.Ready 0 1 0]
        (WlrScreencopyState.capture_output { manager := 1, frames := [] } 10 7).2).map
        (fun i => (WlrScreencopyFrame.buffer_types i, WlrScreencopyFrame.status i))
      = some ([BufferType.WlShm Format.Argb8888 1920 1080 7680],
              FrameStatus.Ready (0, 1, 0))) :=
  terminal_events_set_status (newFrameInner 5) 0 1 0 rfl

/-- C6: the consumer-facing operations do not mutate the frame: copy returns
the inner state unchanged and only emits the wire request, so any later
event trace, buffer_types and status observe exactly the same state;
buffer_types and status are pure reads of the inner state by construction. -/
theorem consumer_ops_do_not_mutate (inner : WlrScreencopyFrameInner) (buffer : Nat) :
    ((WlrScreencopyFrame.copy inner buffer).1 = inner)
  ∧ ((WlrScreencopyFrame.copy inner buffer).2
        = { frame := inner.frame, buffer := buffer })
  ∧ (∀ evs : List FrameEvent,
        runFrameEvents evs ((WlrScreencopyFrame.copy inner buffer).1)
          = runFrameEvents evs inner)
  ∧ (WlrScreencopyFrame.buffer_types ((WlrScreencopyFrame.copy inner buffer).1)
        = WlrScreencopyFrame.buffer_types inner)
  ∧ (WlrScreencopyFrame.status ((WlrScreencopyFrame.copy inner buffer).1)
        = WlrScreencopyFrame.status inner) :=
  ⟨rfl, rfl, fun _ => rfl, rfl, rfl⟩

lemma dispatch_preserves_other_frames (frames frames' : List WlrScreencopyFrameInner)
    (proxy : Nat) (ev : FrameEvent)
    (h : dispatchFrameEvent frames proxy ev = some frames') (k : Nat)
    (hk : ∀ f, frames[k]? = some f → f.frame ≠ proxy) :
    frames'[k]? = frames[k]? := by
  induction frames generalizing frames' k with
  | nil => simp [dispatchFrameEvent] at h
  | cons f rest ih =>
    by_cases hf : f.frame = proxy
    · simp only [dispatchFrameEvent, if_pos hf] at h
      cases happ : applyFrameEvent f ev with
      | none => rw [happ] at h; simp at h
      | some f' =>
        rw [happ] at h
        simp only [Option.map_some', Option.some.injEq] at h
        subst h
        cases k with
        | zero => exact absurd hf (hk f (by simp))
        | succ k => simp [List.getElem?_cons_succ]
    · simp only [dispatchFrameEvent, if_neg hf] at h
      cases hd : dispatchFrameEvent rest proxy ev with
      | none => rw [hd] at h; simp at h
      | some rest' =>
        rw [hd] at h
        simp only [Option.map_some', Option.some.injEq] at h
        subst h
        cases k with
        | zero => simp
        | succ k =>
          simp only [List.getElem?_cons_succ]
          exact ih rest' hd k (fun g hg => hk g (by simpa using hg))

/-- C7: frames registered under distinct identities never observe each
other: for any interleaved list of identity-tagged events that completes
without aborting, every registry slot whose frame identity is tagged by none
of the events is left exactly as it was. -/
theorem frames_no_crosstalk (evs : List (Nat × FrameEvent))
    (frames frames' : List WlrScreencopyFrameInner)
    (h : runDispatch evs frames = some frames') (k : Nat)
    (hk : ∀ f, frames[k]? = some f → ∀ p ∈ evs, f.frame ≠ p.1) :
    frames'[k]? = frames[k]? := by
  induction evs generalizing frames with
  | nil =>
    simp only [runDispatch, Option.some.injEq] at h
    rw [h]
  | cons p ps ih =>
    simp only [runDispatch] at h
    cases hd : dispatchFrameEvent frames p.1 p.2 with
    | none => rw [hd] at h; simp at h
    | some mid =>
      rw [hd] at h
      simp only [Option.some_bind] at h
      have hstep : mid[k]? = frames[k]? :=
        dispatch_preserves_other_frames frames mid p.1 p.2 hd k
          (fun f hf => hk f hf p (by simp))
      have hrest : frames'[k]? = mid[k]? :=
        ih mid h
          (fun f hf q hq => hk f (by rw [← hstep]; exact hf) q (by simp [hq]))
      rw [hrest, hstep]

/-- C7 witness: two frames with identities 1 and 2; a failed event tagged
with identity 1 leaves slot 1 (the frame with identity 2) exactly as it
was. -/
theorem frames_no_crosstalk_witness :
    (([{ frame := 1, buffers := [], buffers_done := false, flags := none,
         status := FrameStatus.Failed }, newFrameInner 2] :
        List WlrScreencopyFrameInner)[1]?)
      = (([newFrameInner 1, newFrameInner 2] : List WlrScreencopyFrameInner)[1]?) :=
  frames_no_crosstalk [(1, FrameEvent.Failed)] [newFrameInner 1, newFrameInner 2]
    [{ frame := 1, buffers := [], buffers_done := false, flags := none,
       status := FrameStatus.Failed }, newFrameInner 2] rfl 1
    (fun f hf p hp => by
      have hf' : newFrameInner 2 = f := by simpa using hf
      have hp' : p = (1, FrameEvent.Failed) := by simpa using hp
      rw [← hf', hp']
      decide)

/-- C8 counterexample: with the capture capability absent from the globals,
manager construction does not hand the caller a BindError value: the source
unwraps the bind result, so construction aborts (NewResult has only the ok
and aborted outcomes, and here it is aborted). -/
theorem new_aborts_on_missing_capability_cex :
    WlrScreencopyState.new [] = NewResult.aborted BindError.NotPresent := rfl

/-- C8 amended: construction requests the capability at version range 1..=3;
when the underlying bind yields a BindError (capability absent or no
mutually supported version) construction aborts carrying that error rather
than returning it, and when bind succeeds it yields the state with the bound
manager and an empty registry. -/
theorem new_bind_outcomes (globals : List (String × Nat)) :
    (∀ e, bindScreencopyManager globals = Except.error e →
        WlrScreencopyState.new globals = NewResult.aborted e)
  ∧ (∀ m, bindScreencopyManager globals = Except.ok m →
        WlrScreencopyState.new globals = NewResult.ok { manager := m, frames := [] }) := by
  constructor
  · intro e he
    simp [WlrScreencopyState.new, he]
  · intro m hm
    simp [WlrScreencopyState.new, hm]

/-- C8 amended witness: a registry advertising the capability at version 2
binds successfully at negotiated version 2 with an empty frame registry. -/
theorem new_bind_outcomes_witness :
    WlrScreencopyState.new [("zwlr_screencopy_manager_v1", 2)]
      = NewResult.ok { manager := 2, frames := [] } :=
  (new_bind_outcomes [("zwlr_screencopy_manager_v1", 2)]).2 2 rfl

/-- C9 counterexample: delivering a damage event to a fresh frame hits the
todo and aborts the dispatch; it is not the state-preserving no-op the claim
describes. -/
theorem damage_aborts_cex :
    (applyFrameEvent (newFrameInner 1) (FrameEvent.Damage 0 0 1 1) = none)
  ∧ (applyFrameEvent (newFrameInner 1) (FrameEvent.Damage 0 0 1 1)
      ≠ some (newFrameInner 1)) :=
  ⟨rfl, by decide⟩

/-- C9 amended: delivering a damage event to any registered frame aborts
event delivery (the handler is an unimplemented todo); no post-state is
produced, so no field is updated either. -/
theorem damage_event_aborts (inner : WlrScreencopyFrameInner) (x y w h : Nat) :
    applyFrameEvent inner (FrameEvent.Damage x y w h) = none := rfl

/-- C10: a frame event of any kind outside the seven defined ones falls into
the catch-all arm: it is silently ignored, producing the frame state
entirely unchanged and no abort. -/
theorem unknown_event_kind_ignored (inner : WlrScreencopyFrameInner) (opcode : Nat) :
    applyFrameEvent inner (FrameEvent.Other opcode) = some inner := rfl
